import Mathlib

/-!
Shallow embedding of the SkyDNS fork's `server.go` (request routing,
authoritative address resolution from an etcd-like store, forwarding with
retry, round-robin answer shuffling, SOA synthesis, and the
question-to-store-path mapping).

Modelling conventions:
* Go strings are `List Char` (`GoStr`); `strings.ToLower` is modelled for
  ASCII, and `dns.SplitDomainName` is modelled for names without escaped
  dots (the repository never produces escapes).
* `net.IP` is a byte list; `nil` results of `net.ParseIP`/`To4`/`To16` are
  `Option.none`.  External library calls (`net.ParseIP`, `url.Parse` +
  `net.SplitHostPort`, `dns.Client.Exchange`, DNSSEC `nsec`/`sign`, the
  wall clock `time.Now`) are oracle fields of an `Env` record.
* `dns.Id()` is a fresh draw from a pseudo-random generator on each call;
  it is modelled as a stream `ids : Nat → Nat` consumed left to right, and
  every function that draws from it also returns the next unread position.
* Machine integers are `Nat` with an explicit `% 2 ^ 32` where Go casts to
  `uint32`.
* The etcd client is a `Store` record: `get` returns `none` exactly when
  the Go call returns a non-nil error, `cluster` is `GetCluster()`.
-/

/-- Go string, as a list of characters. -/
abbrev GoStr := List Char

/-- Character data of a Lean string literal (used to write Go string
literals from `server.go`). -/
def str (s : String) : GoStr := s.data

/-- `strings.ToLower`, restricted to ASCII case mapping. -/
def toLowerStr (s : GoStr) : GoStr := s.map Char.toLower

/-- A `net.IP` value: a byte sequence (length 4 or 16 when well-formed). -/
abbrev GoIP := List Nat

/-- `net.IP.To4`: the 4-byte form, `none` when the address is not IPv4 or
IPv4-mapped IPv6. -/
def ipTo4 (ip : GoIP) : Option GoIP :=
  if ip.length = 4 then some ip
  else if ip.length = 16 ∧ ip.take 10 = List.replicate 10 0 ∧
      ip.getD 10 0 = 255 ∧ ip.getD 11 0 = 255 then
    some (ip.drop 12)
  else none

/-- `net.IP.To16`: the 16-byte form, `none` when the length is neither 4
nor 16. -/
def ipTo16 (ip : GoIP) : Option GoIP :=
  if ip.length = 4 then
    some ([0, 0, 0, 0, 0, 0, 0, 0, 0, 0, 255, 255] ++ ip)
  else if ip.length = 16 then some ip
  else none

/-- Query/record types used by `server.go` (`dns.TypeA` etc.). -/
inductive QType
  | A
  | AAAA
  | SRV
  | ANY
  | SOA
  | DNSKEY
  | OTHER
deriving DecidableEq

/-- `dns.RR_Header`: owner name, record type, class, TTL. -/
structure RRHeader where
  name : GoStr
  rrtype : QType
  cls : Nat
  ttl : Nat
deriving DecidableEq

/-- The `dns.SOA` payload fields. -/
structure SOAData where
  ns : GoStr
  mbox : GoStr
  serial : Nat
  refresh : Nat
  retry : Nat
  expire : Nat
  minttl : Nat
deriving DecidableEq

/-- The resource records `server.go` builds.  Address fields are `none`
when the corresponding Go `net.IP` slice is nil. -/
inductive RR
  | A (hdr : RRHeader) (addr : Option GoIP)
  | AAAA (hdr : RRHeader) (addr : Option GoIP)
  | SOA (hdr : RRHeader) (d : SOAData)
  | DNSKEY (hdr : RRHeader)
deriving DecidableEq

instance : Inhabited RR := ⟨.A ⟨[], .A, 0, 0⟩ none⟩

/-- `dns.Question`: name and query type (class is not consulted). -/
structure Question where
  name : GoStr
  qtype : QType
deriving DecidableEq

/-- The parts of `dns.Msg` that `server.go` reads or writes.  `dnssecOk`
models `req.IsEdns0() != nil && opt.Do()`. -/
structure DnsMsg where
  id : Nat
  rcode : Nat
  authoritative : Bool
  recursionAvailable : Bool
  question : Question
  answer : List RR
  ns : List RR
  extra : List RR
  dnssecOk : Bool
deriving DecidableEq

/-- `dns.RcodeServerFailure`. -/
def rcodeServerFailure : Nat := 2

/-- `dns.RcodeNameError` (NXDOMAIN). -/
def rcodeNameError : Nat := 3

/-- `dns.ClassINET`. -/
def classINET : Nat := 1

/-- `m.SetReply(req)`: fresh message with the request's id and question,
rcode NOERROR, all flags cleared. -/
def setReply (req : DnsMsg) : DnsMsg :=
  { id := req.id, rcode := 0, authoritative := false,
    recursionAvailable := false, question := req.question,
    answer := [], ns := [], extra := [], dnssecOk := false }

/-- An etcd node: leaf (key, value, TTL) or directory with children.  The
`Dir` flag of the Go struct is which constructor applies. -/
inductive Node
  | leaf (key value : GoStr) (ttl : Nat)
  | dir (key : GoStr) (children : List Node)

/-- The etcd client boundary: `get path` is `client.Get(path, false, true)`
(`none` = error), `cluster` is `client.GetCluster()`. -/
structure Store where
  get : GoStr → Option Node
  cluster : List GoStr

/-- The `server` struct fields that the handlers read. -/
structure Server where
  nameservers : List GoStr
  domain : GoStr
  pubKey : Option RR
  roundRobin : Bool
  ttl : Nat
  minTtl : Nat

/-- External oracles: library calls whose implementations live outside the
repository.  `exch t s` is the result of the `t`-th `c.Exchange` call
against nameserver `s` (`none` = transport error); `sign` is the composite
`s.nsec(m); s.sign(m, …)` DNSSEC step; `ids` is the stream of values
returned by successive `dns.Id()` calls; `now` is `time.Now().Unix()`. -/
structure Env where
  parseIP : GoStr → Option GoIP
  urlHost : GoStr → Option GoStr
  splitHostPort : GoStr → Option GoStr
  exch : Nat → GoStr → Option DnsMsg
  sign : DnsMsg → DnsMsg
  ids : Nat → Nat
  now : Nat

/-- `dns.SplitDomainName` for names without escaped dots: the labels of
`s`, without the trailing root label.  `SplitDomainName("")` and
`SplitDomainName(".")` are nil. -/
def splitDomainName (s : GoStr) : List GoStr :=
  if s = [] ∨ s = ['.'] then []
  else List.splitOn '.' (if s.getLast? = some '.' then s.dropLast else s)

/-- `questionToPath` from `server.go`: split into labels, reverse the label
order in place, join with `/`. -/
def questionToPath (s : GoStr) : GoStr :=
  List.intercalate ['/'] (splitDomainName s).reverse

example : questionToPath (str "service.staging.skydns.local.") =
    str "local/skydns/staging/service" := by decide

example : questionToPath (str "b.a.") = str "a/b" := by decide

/-- `"master." + s.domain`. -/
def masterName (srv : Server) : GoStr := str "master." ++ srv.domain

/-- `s.SOA()`'s serial: `uint32(time.Now().Truncate(time.Hour).Unix())`. -/
def soaSerial (now : Nat) : Nat := now / 3600 * 3600 % 2 ^ 32

/-- `s.SOA()` from `server.go`. -/
def soaRR (now : Nat) (srv : Server) : RR :=
  .SOA ⟨srv.domain, .SOA, classINET, srv.ttl⟩
    ⟨str "master." ++ srv.domain, str "hostmaster." ++ srv.domain,
     soaSerial now, 28800, 7200, 604800, srv.minTtl⟩

/-- The simultaneous assignment `records[q], records[p] = records[p],
records[q]` (both reads happen before either write). -/
def swapList [Inhabited α] (l : List α) (i j : Nat) : List α :=
  let a := l.getD i default
  let b := l.getD j default
  (l.set i b).set j a

/-- The `default:` branch of the round-robin switch: `for j := 0; j <
l*(int(dns.Id())%4+1); j++ { q := int(dns.Id()) % l; p := int(dns.Id()) %
l; if q == p { p = (p + 1) % l }; swap }`.  The loop bound is re-evaluated
(with a fresh `dns.Id()` draw) before every iteration; each iteration
draws two further ids.  Returns the records and the next unread stream
position. -/
def rrSwapLoop (ids : Nat → Nat) (l : Nat) (recs : List RR) (idx j : Nat) :
    List RR × Nat :=
  if h : j < l * (ids idx % 4 + 1) then
    rrSwapLoop ids l
      (swapList recs (ids (idx + 1) % l)
        (if ids (idx + 1) % l = ids (idx + 2) % l then (ids (idx + 2) % l + 1) % l
         else ids (idx + 2) % l))
      (idx + 3) (j + 1)
  else (recs, idx + 1)
termination_by l * 4 - j
decreasing_by
  have h4 : ids idx % 4 + 1 ≤ 4 := by omega
  have : j < l * 4 := lt_of_lt_of_le h (Nat.mul_le_mul_left l h4)
  omega

/-- The `if s.RoundRobin { switch l := len(records); l { … } }` block of
`AddressRecords`: length 1 is untouched, length 2 is swapped when a fresh
`dns.Id()` draw is even, anything else (including length 0) runs the swap
loop. -/
def rrShuffle (ids : Nat → Nat) (idx : Nat) (records : List RR) :
    List RR × Nat :=
  if records.length = 1 then (records, idx)
  else if records.length = 2 then
    if ids idx % 2 = 0 then (swapList records 0 1, idx + 1)
    else (records, idx + 1)
  else rrSwapLoop ids records.length records idx 0

/-- The single-leaf branch of `AddressRecords` (`!r.Node.Dir`): two
sequential (non-exclusive) suffix checks, each appending one record whose
address is `net.ParseIP(value).To4()` resp. `.To16()` — with no check that
the parse succeeded. -/
def leafRecords (pip : GoStr → Option GoIP) (qname : GoStr) (qtype : QType)
    (key value : GoStr) (ttl : Nat) : List RR :=
  (if str "/A" <:+ key ∧ qtype = .A then
    [.A ⟨qname, qtype, classINET, ttl % 2 ^ 32⟩ ((pip value).bind ipTo4)]
  else []) ++
  (if str "/AAAA" <:+ key ∧ qtype = .AAAA then
    [.AAAA ⟨qname, qtype, classINET, ttl % 2 ^ 32⟩ ((pip value).bind ipTo16)]
  else [])

/-- `loopAddressNodes` from `server.go`: recursive walk over a directory's
children; directories recurse, leaves matching the requested type emit one
record (again with unchecked `net.ParseIP`). -/
def loopAddressNodes (pip : GoStr → Option GoIP) (q : GoStr) (t : QType) :
    List Node → List RR
  | [] => []
  | .dir _ children :: rest =>
      loopAddressNodes pip q t children ++ loopAddressNodes pip q t rest
  | .leaf key value ttl :: rest =>
      (if str "/A" <:+ key ∧ t = .A then
        [.A ⟨q, t, classINET, ttl % 2 ^ 32⟩ ((pip value).bind ipTo4)]
      else if str "/AAAA" <:+ key ∧ t = .AAAA then
        [.AAAA ⟨q, t, classINET, ttl % 2 ^ 32⟩ ((pip value).bind ipTo16)]
      else []) ++ loopAddressNodes pip q t rest

/-- Record construction from the fetched node (`if !r.Node.Dir { … } else
{ records = append(records, loopAddressNodes(…)…) }`). -/
def buildRecords (pip : GoStr → Option GoIP) (q : Question) (node : Node) :
    List RR :=
  match node with
  | .leaf key value ttl => leafRecords pip q.name q.qtype key value ttl
  | .dir _ children => loopAddressNodes pip q.name q.qtype children

/-- One cluster member's contribution in `AddressRecords`: parse the URL,
split host:port, parse the IP; URL or host:port failures `continue`;
an address that is neither usable as IPv4-with-A-query nor 16-byte
mappable hits `panic("skydns: internal error")` (`none`). -/
def clusterRecords (env : Env) (srv : Server) (qname : GoStr)
    (qtype : QType) : List GoStr → Option (List RR)
  | [] => some []
  | m :: ms =>
    match env.urlHost m with
    | none => clusterRecords env srv qname qtype ms
    | some host =>
      match env.splitHostPort host with
      | none => clusterRecords env srv qname qtype ms
      | some h =>
        let ip := env.parseIP h
        if (ip.bind ipTo4).isSome ∧ qtype = .A then
          (clusterRecords env srv qname qtype ms).map
            (.A ⟨qname, .A, classINET, srv.ttl⟩ (ip.bind ipTo4) :: ·)
        else if (ip.bind ipTo16).isSome then
          (clusterRecords env srv qname qtype ms).map
            (.AAAA ⟨qname, .AAAA, classINET, srv.ttl⟩ (ip.bind ipTo16) :: ·)
        else none

/-- Calls `server.go` makes on the etcd client. -/
inductive Access
  | get (path : GoStr)
  | getCluster
deriving DecidableEq

/-- Outcome of `AddressRecords`: the cluster-member panic, a store error
(`return nil, err`), or the record list. -/
inductive ARResult
  | panicked
  | storeErr
  | ok (records : List RR)
deriving DecidableEq

/-- `AddressRecords` from `server.go`.  Queries for `master.<zone>` or the
zone apex are answered from `GetCluster()` and return *before* the
round-robin block; other names are fetched from the store (error ⇒
`storeErr`), built with `buildRecords`, and shuffled only when
`s.RoundRobin` is set.  Also returns the etcd calls made. -/
def addressRecords (env : Env) (srv : Server) (store : Store)
    (q : Question) : ARResult × List Access :=
  let name := toLowerStr q.name
  if name = masterName srv ∨ name = srv.domain then
    match clusterRecords env srv q.name q.qtype store.cluster with
    | none => (.panicked, [.getCluster])
    | some records => (.ok records, [.getCluster])
  else
    let path := questionToPath name
    match store.get path with
    | none => (.storeErr, [.get path])
    | some node =>
      let records := buildRecords env.parseIP q node
      if srv.roundRobin then
        (.ok (rrShuffle env.ids 0 records).1, [.get path])
      else (.ok records, [.get path])

/-- `m.SetReply(req)` followed by `m.SetRcode(req, dns.RcodeServerFailure)`
(the exhausted-retries reply at the end of `ServeDNSForward`). -/
def servfailReply (req : DnsMsg) : DnsMsg :=
  { setReply req with rcode := rcodeServerFailure }

/-- The `Redo:` retry loop of `ServeDNSForward`.  `tryN` is the Go `try`
counter; each failed exchange increments it and advances `nsid` (wrapping)
while `try < len(s.nameservers)`.  Returns the reply and the list of
nameservers exchanged with, in order (its length is the attempt count). -/
def forwardLoop (env : Env) (ns : List GoStr) (req : DnsMsg)
    (nsid tryN : Nat) : DnsMsg × List GoStr :=
  let server := ns.getD nsid []
  match env.exch tryN server with
  | some r => (r, [server])
  | none =>
    if h : tryN < ns.length then
      let rest := forwardLoop env ns req ((nsid + 1) % ns.length) (tryN + 1)
      (rest.1, server :: rest.2)
    else (servfailReply req, [server])
termination_by ns.length + 1 - tryN

/-- `ServeDNSForward` from `server.go`: with no configured nameservers,
an immediate SERVFAIL with `Authoritative = false` and
`RecursionAvailable = true` and no exchange; otherwise the retry loop
starting at `int(req.Id) % len(s.nameservers)`. -/
def serveDNSForward (env : Env) (srv : Server) (req : DnsMsg) :
    DnsMsg × List GoStr :=
  if srv.nameservers.length = 0 then
    ({ setReply req with
        rcode := rcodeServerFailure
        authoritative := false
        recursionAvailable := true }, [])
  else
    forwardLoop env srv.nameservers req
      (req.id % srv.nameservers.length) 0

/-- What `ServeDNS` writes back: a forwarded reply (with the list of
upstreams tried), an authoritative reply, or the cluster-member panic. -/
inductive ServeResult
  | forwarded (resp : DnsMsg) (tried : List GoStr)
  | answered (resp : DnsMsg)
  | panicked
deriving DecidableEq

/-- The deferred tail of `ServeDNS`: when zone key material is present and
the requester set the DNSSEC-OK bit, `s.nsec(m); s.sign(m, …)` (the
abstract `env.sign`) runs before `w.WriteMsg(m)`. -/
def finishMsg (env : Env) (srv : Server) (req : DnsMsg) (m : DnsMsg) :
    DnsMsg :=
  if srv.pubKey.isSome ∧ req.dnssecOk then env.sign m else m

/-- The part of `ServeDNS` after the A/AAAA block: `SRVRecords` (which
only re-fetches the path and always yields nil records/extra), the
`err != nil && len(m.Answer) == 0` NXDOMAIN case, the no-op ANY/SRV
append, and the final NODATA SOA. -/
def serveRest (env : Env) (srv : Server) (store : Store) (req : DnsMsg)
    (m : DnsMsg) (acc : List Access) : ServeResult × List Access :=
  let path := questionToPath (toLowerStr req.question.name)
  let acc2 := acc ++ [Access.get path]
  if (store.get path).isNone ∧ m.answer = [] then
    (.answered (finishMsg env srv req
      { m with rcode := rcodeNameError, ns := [soaRR env.now srv] }), acc2)
  else if m.answer = [] then
    (.answered (finishMsg env srv req
      { m with ns := [soaRR env.now srv] }), acc2)
  else (.answered (finishMsg env srv req m), acc2)

/-- `ServeDNS` from `server.go`.  Names whose lowercase form does not end
in `s.domain` go to `ServeDNSForward` (and never reach the etcd client);
in-zone requests build an authoritative, recursion-available reply: apex
DNSKEY/SOA intercepts, then `AddressRecords` for A/AAAA (store error ⇒
NXDOMAIN + SOA authority), then the `SRVRecords`/NODATA tail.  The second
component lists the etcd calls made. -/
def serveDNS (env : Env) (srv : Server) (store : Store) (req : DnsMsg) :
    ServeResult × List Access :=
  let q := req.question
  let name := toLowerStr q.name
  if srv.domain <:+ name then
    let m0 := { setReply req with
                 authoritative := true
                 recursionAvailable := true }
    if name = srv.domain ∧ q.qtype = .DNSKEY ∧ srv.pubKey.isSome then
      (.answered (finishMsg env srv req
        { m0 with answer := m0.answer ++ srv.pubKey.toList }), [])
    else if name = srv.domain ∧ q.qtype = .SOA then
      (.answered (finishMsg env srv req
        { m0 with answer := [soaRR env.now srv] }), [])
    else if q.qtype = .A ∨ q.qtype = .AAAA then
      match addressRecords env srv store q with
      | (.panicked, acc) => (.panicked, acc)
      | (.storeErr, acc) =>
        (.answered (finishMsg env srv req
          { m0 with
             rcode := rcodeNameError
             ns := [soaRR env.now srv] }), acc)
      | (.ok records, acc) =>
        serveRest env srv store req
          { m0 with answer := m0.answer ++ records } acc
    else serveRest env srv store req m0 []
  else
    let f := serveDNSForward env srv req
    (.forwarded f.1 f.2, [])

/-- Any nonempty (escape-free) label list: the fully-qualified name built
from it is non-trivial, so `splitDomainName` takes the splitting branch. -/
lemma splitDomainName_fqdn (ls : List GoStr) (hne : ls ≠ [])
    (hlab : ∀ l ∈ ls, l ≠ [] ∧ '.' ∉ l) :
    splitDomainName (List.intercalate ['.'] ls ++ ['.']) = ls := by
  have hx : ∀ l ∈ ls, '.' ∉ l := fun l hl => (hlab l hl).2
  have hsplit : List.splitOn '.' (List.intercalate ['.'] ls) = ls :=
    List.splitOn_intercalate ls '.' hx hne
  have hnnil : List.intercalate ['.'] ls ≠ [] := by
    intro hdot
    rw [hdot] at hsplit
    simp only [List.splitOn_nil] at hsplit
    cases ls with
    | nil => exact hne rfl
    | cons l₀ rest =>
      injection hsplit with h1 h2
      exact (hlab l₀ (by simp)).1 h1.symm
  unfold splitDomainName
  rw [if_neg, if_pos (List.getLast?_concat _), List.dropLast_concat, hsplit]
  push_neg
  refine ⟨by simp, ?_⟩
  intro hcon
  have : List.intercalate ['.'] ls = [] := by
    have := congrArg List.dropLast hcon
    rwa [List.dropLast_concat] at this
  exact hnnil this

/-- C6: `questionToPath` splits a fully-qualified name into its labels,
reverses them and joins with `/`; the path's segments, reversed, are the
original label sequence (round-trip), and `questionToPath "b.a." = "a/b"`.
(The function is a total Lean function, so it has no failure mode.) -/
theorem questionToPath_reverses_labels (ls : List GoStr) (hne : ls ≠ [])
    (hlab : ∀ l ∈ ls, l ≠ [] ∧ '.' ∉ l ∧ '/' ∉ l) :
    questionToPath (List.intercalate ['.'] ls ++ ['.']) =
      List.intercalate ['/'] ls.reverse ∧
    (List.splitOn '/'
        (questionToPath (List.intercalate ['.'] ls ++ ['.']))).reverse = ls ∧
    questionToPath (str "b.a.") = str "a/b" := by
  have hsd : splitDomainName (List.intercalate ['.'] ls ++ ['.']) = ls :=
    splitDomainName_fqdn ls hne (fun l hl => ⟨(hlab l hl).1, (hlab l hl).2.1⟩)
  have hpath : questionToPath (List.intercalate ['.'] ls ++ ['.']) =
      List.intercalate ['/'] ls.reverse := by
    unfold questionToPath
    rw [hsd]
  refine ⟨hpath, ?_, by decide⟩
  rw [hpath]
  have hrev : List.splitOn '/' (List.intercalate ['/'] ls.reverse) =
      ls.reverse := by
    refine List.splitOn_intercalate ls.reverse '/' ?_ ?_
    · intro l hl
      exact (hlab l (List.mem_reverse.mp hl)).2.2
    · simpa using hne
  rw [hrev, List.reverse_reverse]

/-- Witness for C6 at the claim's own example `"b.a."`. -/
theorem questionToPath_reverses_labels_witness :
    questionToPath (List.intercalate ['.'] [ ['b'], ['a'] ] ++ ['.']) =
      List.intercalate ['/'] [ ['b'], ['a'] ].reverse ∧
    (List.splitOn '/'
        (questionToPath (List.intercalate ['.'] [ ['b'], ['a'] ] ++ ['.']))).reverse =
      [ ['b'], ['a'] ] ∧
    questionToPath (str "b.a.") = str "a/b" :=
  questionToPath_reverses_labels [ ['b'], ['a'] ] (by decide) (by decide)

/-- C7: every synthesized SOA record has primary nameserver
`master.<zone>`, mailbox `hostmaster.<zone>`, serial = current time
truncated to the hour (as a `uint32`), refresh 28800, retry 7200, expire
604800 and minimum = the configured minimum TTL; for times representable
in 32 bits the serial is non-decreasing, and strictly increases across an
hour boundary. -/
theorem soaRR_fields_serial (srv : Server) (t t1 t2 : Nat)
    (h1 : t1 ≤ t2) (h2 : t2 < 2 ^ 32) :
    soaRR t srv = RR.SOA ⟨srv.domain, .SOA, classINET, srv.ttl⟩
      ⟨str "master." ++ srv.domain, str "hostmaster." ++ srv.domain,
       t / 3600 * 3600 % 2 ^ 32, 28800, 7200, 604800, srv.minTtl⟩ ∧
    soaSerial t1 ≤ soaSerial t2 ∧
    (t1 / 3600 < t2 / 3600 → soaSerial t1 < soaSerial t2) := by
  have hser : ∀ u : Nat, u < 2 ^ 32 → soaSerial u = u / 3600 * 3600 := by
    intro u hu
    have hle : u / 3600 * 3600 ≤ u := Nat.div_mul_le_self u 3600
    exact Nat.mod_eq_of_lt (lt_of_le_of_lt hle hu)
  have e1 : soaSerial t1 = t1 / 3600 * 3600 := hser t1 (lt_of_le_of_lt h1 h2)
  have e2 : soaSerial t2 = t2 / 3600 * 3600 := hser t2 h2
  refine ⟨rfl, ?_, ?_⟩
  · rw [e1, e2]
    exact Nat.mul_le_mul_right 3600 (Nat.div_le_div_right h1)
  · intro hlt
    rw [e1, e2]
    exact Nat.mul_lt_mul_of_lt_of_le hlt (le_refl 3600) (by omega)

/-- Witness for C7: concrete server and two times an hour apart. -/
theorem soaRR_fields_serial_witness :
    soaRR 7200 ⟨[], str "zone.", none, false, 3600, 60⟩ =
      RR.SOA ⟨str "zone.", .SOA, classINET, 3600⟩
        ⟨str "master." ++ str "zone.", str "hostmaster." ++ str "zone.",
         7200 / 3600 * 3600 % 2 ^ 32, 28800, 7200, 604800, 60⟩ ∧
    soaSerial 7200 ≤ soaSerial 10800 ∧
    (7200 / 3600 < 10800 / 3600 → soaSerial 7200 < soaSerial 10800) :=
  soaRR_fields_serial ⟨[], str "zone.", none, false, 3600, 60⟩ 7200 7200 10800
    (by decide) (by decide)

/-- Setting position `i` moves one count from the old element to the new
value, leaving every other count unchanged. -/
lemma count_set_eq [DecidableEq α] :
    ∀ (l : List α) (i : Nat) (v x : α) (h : i < l.length),
      (l.set i v).count x + (if l[i] = x then 1 else 0) =
      l.count x + (if v = x then 1 else 0)
  | a :: t, 0, v, x, _ => by
      simp only [List.set_cons_zero, List.count_cons, beq_iff_eq,
        List.getElem_cons_zero]
      split_ifs <;> omega
  | a :: t, i + 1, v, x, h => by
      have ih := count_set_eq t i v x (by simpa using h)
      simp only [List.set_cons_succ, List.count_cons, beq_iff_eq,
        List.getElem_cons_succ]
      split_ifs at * <;> omega

/-- The simultaneous swap of two in-range positions is a permutation. -/
lemma swapList_perm [DecidableEq α] [Inhabited α] (l : List α) (i j : Nat)
    (hi : i < l.length) (hj : j < l.length) : (swapList l i j).Perm l := by
  have hgdi : l.getD i default = l[i] := List.getD_eq_getElem l default hi
  have hgdj : l.getD j default = l[j] := List.getD_eq_getElem l default hj
  rcases eq_or_ne i j with rfl | hne
  · simp only [swapList, hgdi, List.set_set]
    have : l.set i (l[i]) = l := by
      apply List.ext_getElem
      · simp
      · intro k hk hk2
        rcases eq_or_ne i k with rfl | hik
        · simp
        · rw [List.getElem_set_ne hik]
    rw [this]
  · rw [List.perm_iff_count]
    intro x
    have hj' : j < (l.set i (l[j])).length := by simpa using hj
    have h1 := count_set_eq l i (l[j]) x hi
    have h2 := count_set_eq (l.set i (l[j])) j (l[i]) x hj'
    have hgj : (l.set i (l[j]))[j] = l[j] := List.getElem_set_ne hne hj'
    simp only [swapList, hgdi, hgdj]
    rw [hgj] at h2
    omega

/-- The swap loop only exchanges in-range positions, so it permutes. -/
lemma rrSwapLoop_perm (ids : Nat → Nat) (l : Nat) (recs : List RR)
    (idx j : Nat) (hl : recs.length = l) :
    ((rrSwapLoop ids l recs idx j).1).Perm recs := by
  by_cases h : j < l * (ids idx % 4 + 1)
  case pos =>
    rw [rrSwapLoop, dif_pos h]
    have hl0 : 0 < l := by
      rcases Nat.eq_zero_or_pos l with h0 | h0
      · rw [h0] at h; omega
      · exact h0
    have hq : ids (idx + 1) % l < l := Nat.mod_lt _ hl0
    have hp : (if ids (idx + 1) % l = ids (idx + 2) % l
        then (ids (idx + 2) % l + 1) % l else ids (idx + 2) % l) < l := by
      split
      · exact Nat.mod_lt _ hl0
      · exact Nat.mod_lt _ hl0
    have hlen : (swapList recs (ids (idx + 1) % l)
        (if ids (idx + 1) % l = ids (idx + 2) % l
         then (ids (idx + 2) % l + 1) % l else ids (idx + 2) % l)).length = l := by
      simp [swapList, hl]
    exact (rrSwapLoop_perm ids l _ (idx + 3) (j + 1) hlen).trans
      (swapList_perm recs _ _ (hl ▸ hq) (hl ▸ hp))
  case neg =>
    rw [rrSwapLoop, dif_neg h]
termination_by l * 4 - j
decreasing_by
  have h4 : ids idx % 4 + 1 ≤ 4 := by omega
  have : j < l * 4 := lt_of_lt_of_le h (Nat.mul_le_mul_left l h4)
  omega

/-- C10: the round-robin post-processing only performs pairwise exchanges,
so on every record list (for every stream of `dns.Id()` draws and stream
position) the result is a permutation of the input — same length and same
multiset of records. -/
theorem rrShuffle_perm (ids : Nat → Nat) (idx : Nat) (records : List RR) :
    ((rrShuffle ids idx records).1).Perm records := by
  unfold rrShuffle
  split
  next => exact List.Perm.refl _
  next =>
    split
    next h2 =>
      split
      next => exact swapList_perm records 0 1 (by omega) (by omega)
      next => exact List.Perm.refl _
    next => exact rrSwapLoop_perm ids records.length records idx 0 rfl

/-- When every `dns.Id()` draw returns the same value `id`, the swap loop
performs exactly `l*((id%4)+1)` swaps, each of positions `id%l` and
`id%l + 1` (wrapping) — the two position draws always coincide. -/
lemma rrSwapLoop_const (id : Nat) (l : Nat) :
    ∀ (k j : Nat) (recs : List RR) (idx : Nat),
      j + k = l * (id % 4 + 1) →
      rrSwapLoop (fun _ => id) l recs idx j =
        ((fun rs => swapList rs (id % l) ((id % l + 1) % l))^[k] recs,
         idx + 3 * k + 1) := by
  intro k
  induction k with
  | zero =>
    intro j recs idx hj
    rw [rrSwapLoop, dif_neg (by omega)]
    simp
  | succ k ih =>
    intro j recs idx hj
    rw [rrSwapLoop, dif_pos (by omega), if_pos rfl,
      ih (j + 1) _ (idx + 3) (by omega), Function.iterate_succ_apply]
    simp only [Prod.mk.injEq]
    constructor <;> first | trivial | rfl | omega

/-- C1 (amended): the shuffler is keyed by fresh draws from the library's
pseudo-random ID generator, not by the request's transaction ID.  When all
draws during one shuffle return the same value `id`, the claimed formulas
hold: a 2-record set is swapped iff `id` is even, and a set of length
`l ≥ 3` undergoes exactly `l*((id mod 4)+1)` pairwise swaps, each picking
the two positions `id mod l` and `id mod l` with the second advanced by
one (wrapping) since they coincide. -/
theorem rrShuffle_constant_id_spec (id : Nat) (recs : List RR) :
    (recs.length = 2 →
      rrShuffle (fun _ => id) 0 recs =
        (if id % 2 = 0 then swapList recs 0 1 else recs, 1)) ∧
    (3 ≤ recs.length →
      rrShuffle (fun _ => id) 0 recs =
        ((fun rs => swapList rs (id % recs.length)
            ((id % recs.length + 1) % recs.length))^[recs.length * (id % 4 + 1)]
          recs,
         3 * (recs.length * (id % 4 + 1)) + 1)) := by
  constructor
  · intro h2
    unfold rrShuffle
    rw [if_neg (by omega), if_pos h2]
    by_cases he : id % 2 = 0
    · rw [if_pos he, if_pos he]
    · rw [if_neg he, if_neg he]
  · intro h3
    unfold rrShuffle
    rw [if_neg (by omega), if_neg (by omega)]
    have := rrSwapLoop_const id recs.length (recs.length * (id % 4 + 1)) 0
      recs 0 (by omega)
    rw [this]
    simp only [Prod.mk.injEq]
    constructor <;> first | trivial | rfl | omega

/-- Sample records (distinct A records with distinct addresses). -/
def recA : RR := .A ⟨str "x.zone.", .A, classINET, 60⟩ (some [10, 0, 0, 1])

/-- Second sample record. -/
def recB : RR := .A ⟨str "x.zone.", .A, classINET, 60⟩ (some [10, 0, 0, 2])

/-- Third sample record. -/
def recC : RR := .A ⟨str "x.zone.", .A, classINET, 60⟩ (some [10, 0, 0, 3])

/-- C1 (counterexample): the shuffle outcome is not a function of the
query's transaction ID — for the same request and record set, two
different generator histories (all-0 versus all-1 draws) produce different
orders, so the claimed determinism-given-query-ID (swap iff the query ID
is even) is false of the code, which never reads the query ID here. -/
theorem rrShuffle_not_reqid_deterministic :
    (rrShuffle (fun _ => 0) 0 [recA, recB]).1 ≠
      (rrShuffle (fun _ => 1) 0 [recA, recB]).1 := by decide

/-- Witness for C1's amended theorem at a concrete length-3 record set and
constant draw 5. -/
theorem rrShuffle_constant_id_spec_witness :
    rrShuffle (fun _ => 5) 0 [recA, recB, recC] =
      ((fun rs => swapList rs (5 % ([recA, recB, recC] : List RR).length)
          ((5 % ([recA, recB, recC] : List RR).length + 1) %
            ([recA, recB, recC] : List RR).length))^[([recA, recB, recC] :
              List RR).length * (5 % 4 + 1)] [recA, recB, recC],
       3 * (([recA, recB, recC] : List RR).length * (5 % 4 + 1)) + 1) :=
  (rrShuffle_constant_id_spec 5 [recA, recB, recC]).2 (by decide)

/-- With every exchange failing, from counter value `tryN` the retry loop
makes exactly `ns.length - tryN + 1` further exchanges and ends in
SERVFAIL. -/
lemma forwardLoop_all_fail (env : Env) (ns : List GoStr) (req : DnsMsg)
    (hfail : ∀ t s, env.exch t s = none) :
    ∀ (k nsid tryN : Nat), tryN + k = ns.length →
      (forwardLoop env ns req nsid tryN).1 = servfailReply req ∧
      (forwardLoop env ns req nsid tryN).2.length = k + 1 := by
  intro k
  induction k with
  | zero =>
    intro nsid tryN h
    rw [forwardLoop]
    simp only [hfail]
    rw [dif_neg (by omega)]
    exact ⟨rfl, rfl⟩
  | succ k ih =>
    intro nsid tryN h
    rw [forwardLoop]
    simp only [hfail]
    rw [dif_pos (by omega)]
    have hr := ih ((nsid + 1) % ns.length) (tryN + 1) (by omega)
    exact ⟨hr.1, by simp [hr.2]⟩

/-- C2 (as measured on the code): when every configured nameserver fails,
`ServeDNSForward` performs `N + 1` exchange attempts — not the claimed
`N` — before returning SERVFAIL, because the `try < len(s.nameservers)`
check runs after the initial attempt, so the starting server is tried a
second time. -/
theorem forward_all_fail_attempts (env : Env) (srv : Server) (req : DnsMsg)
    (hne : srv.nameservers ≠ [])
    (hfail : ∀ t s, env.exch t s = none) :
    (serveDNSForward env srv req).1 = servfailReply req ∧
    (serveDNSForward env srv req).2.length = srv.nameservers.length + 1 := by
  unfold serveDNSForward
  rw [if_neg (by simpa [List.length_eq_zero] using hne)]
  exact forwardLoop_all_fail env srv.nameservers req hfail
    srv.nameservers.length (req.id % srv.nameservers.length) 0 (by omega)

/-- An environment in which every external call fails (and the clock and
generator are zero). -/
def envFail : Env :=
  ⟨fun _ => none, fun _ => none, fun _ => none, fun _ _ => none, id,
   fun _ => 0, 0⟩

/-- A server with one upstream nameserver. -/
def srvFwd : Server := ⟨[str "8.8.8.8:53"], str "zone.", none, false, 3600, 60⟩

/-- An out-of-zone A request. -/
def reqFwd : DnsMsg :=
  ⟨7, 0, false, false, ⟨str "example.com.", .A⟩, [], [], [], false⟩

/-- Witness for C2: one configured nameserver, every exchange failing —
two exchange attempts happen (`N + 1 = 2`), then SERVFAIL. -/
theorem forward_all_fail_attempts_witness :
    (serveDNSForward envFail srvFwd reqFwd).1 = servfailReply reqFwd ∧
    (serveDNSForward envFail srvFwd reqFwd).2.length =
      srvFwd.nameservers.length + 1 :=
  forward_all_fail_attempts envFail srvFwd reqFwd (by decide)
    (fun _ _ => rfl)

/-- C3: a request whose case-folded name does not end in the configured
zone is dispatched to the forwarder with no etcd access at all; and with
no upstream nameservers configured the forwarder immediately returns
SERVFAIL with `Authoritative = false` and `RecursionAvailable = true`,
attempting no exchange. -/
theorem serveDNS_outside_zone_forwards (env : Env) (srv : Server)
    (store : Store) (req : DnsMsg)
    (h : ¬ srv.domain <:+ toLowerStr req.question.name) :
    serveDNS env srv store req =
      (.forwarded (serveDNSForward env srv req).1
        (serveDNSForward env srv req).2, []) ∧
    (srv.nameservers = [] →
      serveDNSForward env srv req =
        ({ setReply req with
            rcode := rcodeServerFailure
            authoritative := false
            recursionAvailable := true }, [])) := by
  constructor
  · simp only [serveDNS]
    rw [if_neg h]
  · intro hns
    simp only [serveDNSForward]
    rw [if_pos (by simp [hns])]

/-- Witness for C3: a query for `example.com.` against zone `zone.` with
no configured nameservers. -/
theorem serveDNS_outside_zone_forwards_witness :
    serveDNS envFail ⟨[], str "zone.", none, false, 3600, 60⟩
        ⟨fun _ => none, []⟩ reqFwd =
      (.forwarded
        (serveDNSForward envFail ⟨[], str "zone.", none, false, 3600, 60⟩
          reqFwd).1
        (serveDNSForward envFail ⟨[], str "zone.", none, false, 3600, 60⟩
          reqFwd).2, []) ∧
    (([] : List GoStr) = [] →
      serveDNSForward envFail ⟨[], str "zone.", none, false, 3600, 60⟩
          reqFwd =
        ({ setReply reqFwd with
            rcode := rcodeServerFailure
            authoritative := false
            recursionAvailable := true }, [])) :=
  serveDNS_outside_zone_forwards envFail
    ⟨[], str "zone.", none, false, 3600, 60⟩ ⟨fun _ => none, []⟩ reqFwd
    (by decide)

/-- When no key material is configured or the requester did not set the
DNSSEC-OK bit, the deferred signing step is the identity. -/
lemma finishMsg_id (env : Env) (srv : Server) (req : DnsMsg)
    (hsec : srv.pubKey = none ∨ req.dnssecOk = false) :
    ∀ m, finishMsg env srv req m = m := by
  intro m
  unfold finishMsg
  rcases hsec with hk | hd
  · rw [if_neg (by simp [hk])]
  · rw [if_neg (by simp [hd])]

/-- C4: an A or AAAA query for an in-zone name (other than the apex and
`master.<zone>`) whose store fetch errors is answered — not dropped — with
rcode NXDOMAIN, exactly one SOA record in the authority section, and an
empty answer section. -/
theorem serveDNS_missing_path_nxdomain (env : Env) (srv : Server)
    (store : Store) (req : DnsMsg)
    (hq : req.question.qtype = .A ∨ req.question.qtype = .AAAA)
    (hin : srv.domain <:+ toLowerStr req.question.name)
    (hm : toLowerStr req.question.name ≠ masterName srv)
    (ha : toLowerStr req.question.name ≠ srv.domain)
    (hget : store.get (questionToPath (toLowerStr req.question.name)) = none)
    (hsec : srv.pubKey = none ∨ req.dnssecOk = false) :
    serveDNS env srv store req =
      (.answered { setReply req with
          authoritative := true
          recursionAvailable := true
          rcode := rcodeNameError
          ns := [soaRR env.now srv] },
       [Access.get (questionToPath (toLowerStr req.question.name))]) := by
  have haddr : addressRecords env srv store req.question =
      (.storeErr,
       [Access.get (questionToPath (toLowerStr req.question.name))]) := by
    simp only [addressRecords]
    rw [if_neg (by simp [hm, ha]), hget]
  have hnk : ¬(toLowerStr req.question.name = srv.domain ∧
      req.question.qtype = QType.DNSKEY ∧ srv.pubKey.isSome = true) := by
    simp [ha]
  have hns : ¬(toLowerStr req.question.name = srv.domain ∧
      req.question.qtype = QType.SOA) := by
    simp [ha]
  simp only [serveDNS, if_pos hin, if_neg hnk, if_neg hns, if_pos hq, haddr,
    finishMsg_id env srv req hsec]

/-- A server for zone `zone.` with no nameservers, no key, round-robin
off. -/
def srvZone : Server := ⟨[], str "zone.", none, false, 3600, 60⟩

/-- A store that fails every fetch and reports no cluster members. -/
def storeEmpty : Store := ⟨fun _ => none, []⟩

/-- An in-zone A request for `x.zone.`. -/
def reqXZone : DnsMsg :=
  ⟨5, 0, false, false, ⟨str "x.zone.", .A⟩, [], [], [], false⟩

/-- Witness for C4: A query for `x.zone.` with an empty store. -/
theorem serveDNS_missing_path_nxdomain_witness :
    serveDNS envFail srvZone storeEmpty reqXZone =
      (.answered { setReply reqXZone with
          authoritative := true
          recursionAvailable := true
          rcode := rcodeNameError
          ns := [soaRR envFail.now srvZone] },
       [Access.get (questionToPath (toLowerStr reqXZone.question.name))]) :=
  serveDNS_missing_path_nxdomain envFail srvZone storeEmpty reqXZone
    (Or.inl rfl) (by decide) (by decide) (by decide) rfl (Or.inl rfl)

/-- A store holding one leaf under `zone/x` whose key has the `/A` suffix
and whose value does not parse as an IP (the `envFail` parser rejects
everything). -/
def storeBadLeaf : Store :=
  ⟨fun p => if p = str "zone/x"
    then some (.leaf (str "/zone/x/A") (str "not-an-ip") 60) else none, []⟩

/-- C5 (counterexample): an A query on an `/A` leaf whose value is
unparsable is *not* silently omitted — `AddressRecords` returns one A
record whose address is the nil result of the unchecked
`net.ParseIP(value).To4()`, not the empty record set. -/
theorem malformed_value_not_omitted :
    (addressRecords envFail srvZone storeBadLeaf reqXZone.question).1 =
      .ok [.A ⟨str "x.zone.", .A, classINET, 60 % 2 ^ 32⟩ none] ∧
    (addressRecords envFail srvZone storeBadLeaf reqXZone.question).1 ≠
      .ok [] := by decide

/-- C5 (amended): a leaf whose key carries the family suffix matching the
query type always yields exactly one record, whatever `net.ParseIP` does
with its value — an unparsable value produces a record with a nil
address rather than being omitted — in both the single-leaf path and the
recursive directory walk. -/
theorem malformed_value_record_emitted (pip : GoStr → Option GoIP)
    (qn value : GoStr) (ttl : Nat) (kA kQ : GoStr)
    (hA : str "/A" <:+ kA) (hQ : str "/AAAA" <:+ kQ) :
    leafRecords pip qn .A kA value ttl =
      [.A ⟨qn, .A, classINET, ttl % 2 ^ 32⟩ ((pip value).bind ipTo4)] ∧
    leafRecords pip qn .AAAA kQ value ttl =
      [.AAAA ⟨qn, .AAAA, classINET, ttl % 2 ^ 32⟩ ((pip value).bind ipTo16)] ∧
    loopAddressNodes pip qn .A [.leaf kA value ttl] =
      [.A ⟨qn, .A, classINET, ttl % 2 ^ 32⟩ ((pip value).bind ipTo4)] ∧
    loopAddressNodes pip qn .AAAA [.leaf kQ value ttl] =
      [.AAAA ⟨qn, .AAAA, classINET, ttl % 2 ^ 32⟩ ((pip value).bind ipTo16)] := by
  refine ⟨?_, ?_, ?_, ?_⟩
  · simp [leafRecords, hA]
  · simp [leafRecords, hQ]
  · simp [loopAddressNodes, hA]
  · simp [loopAddressNodes, hQ]

/-- Witness for C5's amended theorem at concrete keys and an unparsable
value. -/
theorem malformed_value_record_emitted_witness :
    leafRecords (fun _ => none) (str "x.zone.") .A (str "/zone/x/A")
        (str "bogus") 60 =
      [.A ⟨str "x.zone.", .A, classINET, 60 % 2 ^ 32⟩
        (((fun _ => none : GoStr → Option GoIP) (str "bogus")).bind ipTo4)] ∧
    leafRecords (fun _ => none) (str "x.zone.") .AAAA (str "/zone/x/AAAA")
        (str "bogus") 60 =
      [.AAAA ⟨str "x.zone.", .AAAA, classINET, 60 % 2 ^ 32⟩
        (((fun _ => none : GoStr → Option GoIP) (str "bogus")).bind ipTo16)] ∧
    loopAddressNodes (fun _ => none) (str "x.zone.") .A
        [.leaf (str "/zone/x/A") (str "bogus") 60] =
      [.A ⟨str "x.zone.", .A, classINET, 60 % 2 ^ 32⟩
        (((fun _ => none : GoStr → Option GoIP) (str "bogus")).bind ipTo4)] ∧
    loopAddressNodes (fun _ => none) (str "x.zone.") .AAAA
        [.leaf (str "/zone/x/AAAA") (str "bogus") 60] =
      [.AAAA ⟨str "x.zone.", .AAAA, classINET, 60 % 2 ^ 32⟩
        (((fun _ => none : GoStr → Option GoIP) (str "bogus")).bind ipTo16)] :=
  malformed_value_record_emitted (fun _ => none) (str "x.zone.")
    (str "bogus") 60 (str "/zone/x/A") (str "/zone/x/AAAA")
    (by decide) (by decide)

/-- Oracles resolving two IPv4 cluster-member URLs (and even draws). -/
def envC8 : Env :=
  ⟨fun s => if s = str "10.0.0.1" then some [10, 0, 0, 1]
            else if s = str "10.0.0.2" then some [10, 0, 0, 2] else none,
   fun s => if s = str "http://10.0.0.1:4001" then some (str "10.0.0.1:4001")
            else if s = str "http://10.0.0.2:4001"
            then some (str "10.0.0.2:4001") else none,
   fun s => if s = str "10.0.0.1:4001" then some (str "10.0.0.1")
            else if s = str "10.0.0.2:4001" then some (str "10.0.0.2")
            else none,
   fun _ _ => none, id, fun _ => 0, 0⟩

/-- `srvZone` with round-robin enabled. -/
def srvRR : Server := ⟨[], str "zone.", none, true, 3600, 60⟩

/-- A store whose cluster has the two IPv4 members. -/
def storeCluster : Store :=
  ⟨fun _ => none, [str "http://10.0.0.1:4001", str "http://10.0.0.2:4001"]⟩

/-- An A question for the zone apex. -/
def qApex : Question := ⟨str "zone.", .A⟩

/-- C8 (counterexample): with round-robin enabled, the cluster-membership
answer for the zone apex is returned in store order even though the
shuffler (fed the same generator stream, which would swap a pair on an
even draw) would reorder it: the cluster branch returns before the
round-robin block. -/
theorem cluster_records_not_shuffled :
    (addressRecords envC8 srvRR storeCluster qApex).1 =
      .ok [.A ⟨str "zone.", .A, classINET, 3600⟩ (some [10, 0, 0, 1]),
           .A ⟨str "zone.", .A, classINET, 3600⟩ (some [10, 0, 0, 2])] ∧
    (rrShuffle envC8.ids 0
        [.A ⟨str "zone.", .A, classINET, 3600⟩ (some [10, 0, 0, 1]),
         .A ⟨str "zone.", .A, classINET, 3600⟩ (some [10, 0, 0, 2])]).1 =
      [.A ⟨str "zone.", .A, classINET, 3600⟩ (some [10, 0, 0, 2]),
       .A ⟨str "zone.", .A, classINET, 3600⟩ (some [10, 0, 0, 1])] ∧
    (addressRecords envC8 srvRR storeCluster qApex).1 ≠
      .ok (rrShuffle envC8.ids 0
        [.A ⟨str "zone.", .A, classINET, 3600⟩ (some [10, 0, 0, 1]),
         .A ⟨str "zone.", .A, classINET, 3600⟩ (some [10, 0, 0, 2])]).1 := by
  decide

/-- C8 (amended): when round-robin is enabled, the record sets built from
the store tree are passed through the shuffler before being returned, but
the cluster-membership answers for the zone apex and `master.<zone>` are
returned as built, bypassing the shuffler. -/
theorem addressRecords_shuffle_policy (env : Env) (srv : Server)
    (store : Store) (q : Question) (node : Node)
    (hrr : srv.roundRobin = true)
    (hm : toLowerStr q.name ≠ masterName srv)
    (ha : toLowerStr q.name ≠ srv.domain)
    (hget : store.get (questionToPath (toLowerStr q.name)) = some node) :
    addressRecords env srv store q =
      (.ok (rrShuffle env.ids 0 (buildRecords env.parseIP q node)).1,
       [Access.get (questionToPath (toLowerStr q.name))]) ∧
    (∀ q2 : Question,
      toLowerStr q2.name = masterName srv ∨ toLowerStr q2.name = srv.domain →
      addressRecords env srv store q2 =
        (match clusterRecords env srv q2.name q2.qtype store.cluster with
         | none => ARResult.panicked
         | some records => .ok records, [Access.getCluster])) := by
  constructor
  · simp only [addressRecords]
    rw [if_neg (by simp [hm, ha]), hget]
    simp [hrr]
  · intro q2 h2
    simp only [addressRecords]
    rw [if_pos h2]
    cases clusterRecords env srv q2.name q2.qtype store.cluster <;> rfl

/-- A store with a valid A leaf under `zone/x` plus the two IPv4 cluster
members. -/
def storeC8w : Store :=
  ⟨fun p => if p = str "zone/x"
    then some (.leaf (str "/zone/x/A") (str "10.0.0.9") 60) else none,
   [str "http://10.0.0.1:4001", str "http://10.0.0.2:4001"]⟩

/-- The leaf stored in `storeC8w`. -/
def nodeC8w : Node := .leaf (str "/zone/x/A") (str "10.0.0.9") 60

/-- Witness for C8's amended theorem: round-robin on, a store-path query
is shuffled, and any apex/master query is answered from the cluster list
as built. -/
theorem addressRecords_shuffle_policy_witness :
    addressRecords envC8 srvRR storeC8w reqXZone.question =
      (.ok (rrShuffle envC8.ids 0
        (buildRecords envC8.parseIP reqXZone.question nodeC8w)).1,
       [Access.get (questionToPath (toLowerStr reqXZone.question.name))]) ∧
    (∀ q2 : Question,
      toLowerStr q2.name = masterName srvRR ∨
        toLowerStr q2.name = srvRR.domain →
      addressRecords envC8 srvRR storeC8w q2 =
        (match clusterRecords envC8 srvRR q2.name q2.qtype
            storeC8w.cluster with
         | none => ARResult.panicked
         | some records => .ok records, [Access.getCluster])) :=
  addressRecords_shuffle_policy envC8 srvRR storeC8w reqXZone.question
    nodeC8w rfl (by decide) (by decide) rfl

/-- The sample IPv6 address `2001:db8::1` as 16 bytes. -/
def ip6db8 : GoIP := [32, 1, 13, 184, 0, 0, 0, 0, 0, 0, 0, 0, 0, 0, 0, 1]

/-- C9: an A query for `master.<zone>` with exactly the two cluster
members `10.0.0.1` and `2001:db8::1` yields one A record carrying
`10.0.0.1` and one AAAA record carrying the IPv6 member, both with header
TTL equal to the configured default TTL; the only etcd call made is
`GetCluster()` — the stored tree is never fetched. -/
theorem master_cluster_records (env : Env) (srv : Server) (store : Store)
    (qn m1 m2 h1 h2 s1 s2 : GoStr)
    (hcl : store.cluster = [m1, m2])
    (hu1 : env.urlHost m1 = some h1) (hs1 : env.splitHostPort h1 = some s1)
    (hp1 : env.parseIP s1 = some [10, 0, 0, 1])
    (hu2 : env.urlHost m2 = some h2) (hs2 : env.splitHostPort h2 = some s2)
    (hp2 : env.parseIP s2 = some ip6db8)
    (hname : toLowerStr qn = masterName srv) :
    addressRecords env srv store ⟨qn, .A⟩ =
      (.ok [.A ⟨qn, .A, classINET, srv.ttl⟩ (some [10, 0, 0, 1]),
            .AAAA ⟨qn, .AAAA, classINET, srv.ttl⟩ (some ip6db8)],
       [Access.getCluster]) := by
  have c1 : (some ([10, 0, 0, 1] : GoIP)).bind ipTo4 =
      some [10, 0, 0, 1] := by decide
  have c2 : (some ip6db8).bind ipTo4 = none := by decide
  have c3 : (some ip6db8).bind ipTo16 = some ip6db8 := by decide
  have hc : clusterRecords env srv qn QType.A [m1, m2] =
      some [.A ⟨qn, .A, classINET, srv.ttl⟩ (some [10, 0, 0, 1]),
            .AAAA ⟨qn, .AAAA, classINET, srv.ttl⟩ (some ip6db8)] := by
    simp only [clusterRecords, hu1, hs1, hp1, hu2, hs2, hp2, c1, c2, c3]
    simp
  simp only [addressRecords]
  rw [if_pos (Or.inl hname), hcl, hc]

/-- Oracles resolving one IPv4 and one IPv6 cluster-member URL. -/
def envC9 : Env :=
  ⟨fun s => if s = str "10.0.0.1" then some [10, 0, 0, 1]
            else if s = str "2001:db8::1" then some ip6db8 else none,
   fun s => if s = str "http://10.0.0.1:4001" then some (str "10.0.0.1:4001")
            else if s = str "http://[2001:db8::1]:4001"
            then some (str "[2001:db8::1]:4001") else none,
   fun s => if s = str "10.0.0.1:4001" then some (str "10.0.0.1")
            else if s = str "[2001:db8::1]:4001"
            then some (str "2001:db8::1") else none,
   fun _ _ => none, id, fun _ => 0, 0⟩

/-- A store whose two cluster members are `10.0.0.1` and `2001:db8::1`. -/
def storeC9 : Store :=
  ⟨fun _ => none,
   [str "http://10.0.0.1:4001", str "http://[2001:db8::1]:4001"]⟩

/-- Witness for C9: the concrete `A? master.zone.` query. -/
theorem master_cluster_records_witness :
    addressRecords envC9 srvZone storeC9 ⟨str "master.zone.", .A⟩ =
      (.ok [.A ⟨str "master.zone.", .A, classINET, srvZone.ttl⟩
              (some [10, 0, 0, 1]),
            .AAAA ⟨str "master.zone.", .AAAA, classINET, srvZone.ttl⟩
              (some ip6db8)],
       [Access.getCluster]) :=
  master_cluster_records envC9 srvZone storeC9 (str "master.zone.")
    (str "http://10.0.0.1:4001") (str "http://[2001:db8::1]:4001")
    (str "10.0.0.1:4001") (str "[2001:db8::1]:4001")
    (str "10.0.0.1") (str "2001:db8::1")
    rfl rfl rfl rfl rfl rfl rfl (by decide)
